import Mathlib

/-!
Verification of the ignition-google-api repository: a shallow embedding of
the Google OAuth redirect handler (WebDev `doGet` resources), the two
credential managers in `google/auth/code.py` (`GoogleOAuthClient` and
`GoogleServiceAccountClient`), and the Sheets column-letter helper in
`google/google_sheets/code.py`, together with theorems settling the
specification claims about them.

Modelling conventions:
* Ignition `Date` values are abstract integer timestamps; `system.date.now()`
  becomes an explicit `now : Int` parameter, `system.date.addSeconds d s` is
  `d + s` and `d1.before(d2)` is `d1 < d2`.
* One network round-trip (`system.net.httpClient(...).post`) is modelled by
  passing the `HttpResponse` the token endpoint would return as a parameter.
* The tag DataSet holding one credential record is modelled as a record value;
  a function that may write the tag returns the store value after the call.
* Jython exceptions become `Except` errors.  `raise Exception(msg)` with the
  message template `"...: %s %s" % (status, jsonResult)` is modelled as a
  structured error carrying exactly the data interpolated into the template.
-/

deriving instance DecidableEq for Except

/-- A Jython value as seen by the WebDev `doGet` handler: the query-parameter
dictionary yields `None`, a string, or a list/tuple of strings (the host's
query parser produces string values). -/
inductive PyVal where
  | pynone : PyVal
  | str : String → PyVal
  | list : List String → PyVal
deriving DecidableEq

/-- Python truthiness: `None` and empty strings/lists are falsy. -/
def PyVal.truthy : PyVal → Bool
  | .pynone => false
  | .str s => s != ""
  | .list xs => !xs.isEmpty

/-- `isinstance(v, (list, tuple))`. -/
def PyVal.isList : PyVal → Bool
  | .list _ => true
  | _ => false

/-- Python subscript `v[0]`: first element of a list, first character of a
string (as a one-character string), `TypeError` on `None`, `IndexError` on an
empty sequence. -/
def PyVal.item0 : PyVal → Except String PyVal
  | .pynone => .error "TypeError"
  | .str s =>
      match s.data with
      | [] => .error "IndexError"
      | c :: _ => .ok (.str (String.mk [c]))
  | .list [] => .error "IndexError"
  | .list (x :: _) => .ok (.str x)

/-- Python equality between a parameter value and `session.get("google_oauth_state", None)`
(which is `None` or a string): strings compare by content, `None == None`,
everything else is unequal. -/
def pyEqOptStr : PyVal → Option String → Bool
  | .str s, some t => s == t
  | .pynone, Option.none => true
  | _, _ => false

/-- Truthiness of the session slot value (`not expected_state` in the source):
absent (`None`) and the empty string are falsy. -/
def sessTruthy : Option String → Bool
  | Option.none => false
  | some s => s ≠ ""

/-- The distinct HTML pages the redirect handler can return. -/
inductive Page where
  | oauthError : Page
  | missingCode : Page
  | invalidState : Page
  | success : Page
  | internalError : Page
deriving DecidableEq

/-- Observable outcome of one `doGet` call on the redirect resource:
the servlet status it sets, which HTML page it returns, the session
`google_oauth_state` slot after the call, whether
`exchange_code_for_tokens` was invoked and with which argument. -/
structure DoGetOut where
  status : Nat
  page : Page
  sessionAfter : Option String
  exchangeCalled : Bool
  exchangeArg : Option PyVal
deriving DecidableEq

/-- Steps 1-5 of `redirect/doGet.py` after the step-0 list normalization:
the `error` branch, the missing-`code` branch, state validation against the
session, deletion of the session state on success, the late `code`
normalization, and the token exchange guarded by try/except.
`exch` is the outcome `exchange_code_for_tokens` would produce
(`.ok` tokens or `.error` for any raised exception). -/
def doGetAfterNorm (code0 error0 state : PyVal) (sess : Option String)
    (exch : Except Unit (String × String)) : Except String DoGetOut :=
  if error0.truthy then
    .ok ⟨400, .oauthError, sess, false, Option.none⟩
  else if !code0.truthy then
    .ok ⟨400, .missingCode, sess, false, Option.none⟩
  else if !state.truthy || !(sessTruthy sess) || !(pyEqOptStr state sess) then
    .ok ⟨400, .invalidState, sess, false, Option.none⟩
  else
    match (if code0.isList then code0.item0 else .ok code0) with
    | .error e => .error e
    | .ok code =>
        match exch with
        | .ok _ => .ok ⟨200, .success, Option.none, true, some code⟩
        | .error _ => .ok ⟨500, .internalError, Option.none, true, some code⟩

/-- Step 0 of `redirect/doGet.py`, modelled verbatim: the source's list
normalization block is
`if isinstance(code, (list, tuple)): state = state[0]` followed by
`if isinstance(state, (list, tuple)): state = state[0]` — the first guard
tests `code` but reassigns `state`. -/
def normState (code0 state0 : PyVal) : Except String PyVal :=
  match (if code0.isList then state0.item0 else .ok state0) with
  | .error e => .error e
  | .ok state1 => if state1.isList then state1.item0 else .ok state1

/-- The redirect handler `doGet(request, session)` of
`resources/google/oauth/redirect/doGet.py`.  `code0`, `error0`, `state0` are
the raw query-parameter values, `sess` is the session's
`google_oauth_state` slot.  A `.error` result is an uncaught Python
exception escaping the handler. -/
def doGet (code0 error0 state0 : PyVal) (sess : Option String)
    (exch : Except Unit (String × String)) : Except String DoGetOut :=
  match normState code0 state0 with
  | .error e => .error e
  | .ok state => doGetAfterNorm code0 error0 state sess exch

/-- The JSON fields of a token-endpoint response that the managers consume
(`resp.json` in the source): `access_token`, optional `refresh_token`,
optional `expires_in` (seconds). -/
structure TokenJson where
  access_token : Option String
  refresh_token : Option String
  expires_in : Option Int
deriving DecidableEq

/-- One HTTP response from the token endpoint: `statusCode`, the parsed
`json`, and `body`, the textual rendering of `jsonResult` that the source
interpolates into log and exception messages. -/
structure HttpResponse where
  statusCode : Nat
  json : TokenJson
  body : String
deriving DecidableEq

/-- An exception raised by the token managers.
`valueError msg` models `raise ValueError(msg)`.
`httpError status body` models `raise Exception(template % ...)` where the
template interpolates the HTTP status and, when `body` is `some`, also the
rendered response body (`jsonResult`); `body = none` models a message that
mentions only the status, as in
`"ServiceAccount token request failed: HTTP %s" % status`. -/
inductive AuthError where
  | valueError : String → AuthError
  | httpError : Nat → Option String → AuthError
deriving DecidableEq

/-- Outcome of one manager operation: the credential record persisted in the
tag after the call (`storeAfter`, unchanged when nothing was written) and the
returned value or raised exception. -/
structure OpOut (ρ τ : Type) where
  storeAfter : ρ
  result : Except AuthError τ
deriving DecidableEq

/-- First row of the `[root]/OAuthClient` DataSet. -/
structure OAuthRecord where
  client_id : String
  client_secret : String
  refresh_token : String
  access_token : String
  token_expiry : Option Int
deriving DecidableEq

/-- The `values` dict passed to `GoogleOAuthClient._write_dataset`: only the
keys present (`some`) are applied to the matching columns. -/
structure OAuthUpdate where
  client_id : Option String := Option.none
  client_secret : Option String := Option.none
  refresh_token : Option String := Option.none
  access_token : Option String := Option.none
  token_expiry : Option (Option Int) := Option.none

/-- First row of the `[root]/ServiceAccount` DataSet. -/
structure SARecord where
  client_email : String
  private_key : String
  access_token : String
  token_expiry : Option Int
deriving DecidableEq

/-- The `values` dict passed to `GoogleServiceAccountClient._write_dataset`. -/
structure SAUpdate where
  client_email : Option String := Option.none
  private_key : Option String := Option.none
  access_token : Option String := Option.none
  token_expiry : Option (Option Int) := Option.none

/-- Marks whether a `_read_dataset` call handed its caller the field
dictionary it builds from the first row, or the raw DataSet object itself. -/
inductive DatasetOrDict (ρ : Type) where
  | dict : ρ → DatasetOrDict ρ
  | dataset : ρ → DatasetOrDict ρ
deriving DecidableEq

/-- Outcome of `_read_dataset`: the tag value after the call (a default
record is written when the tag was empty) and what was returned. -/
structure ReadOut (ρ : Type) where
  storeAfter : Option ρ
  result : DatasetOrDict ρ
deriving DecidableEq

namespace GoogleOAuthClient

/-- `GoogleOAuthClient._read_dataset`: when the tag holds no DataSet (or no
rows), a default row of empty strings with `token_expiry = system.date.now()`
is written back; either way the first row is returned as a field dict. -/
def _read_dataset (stored : Option OAuthRecord) (now : Int) : ReadOut OAuthRecord :=
  match stored with
  | Option.none =>
      let d : OAuthRecord := ⟨"", "", "", "", some now⟩
      ⟨some d, .dict d⟩
  | some r => ⟨some r, .dict r⟩

/-- `GoogleOAuthClient._write_dataset`: update the first row, column by
column, applying only the keys present in the `values` dict. -/
def _write_dataset (r : OAuthRecord) (u : OAuthUpdate) : OAuthRecord :=
  { client_id := u.client_id.getD r.client_id
    client_secret := u.client_secret.getD r.client_secret
    refresh_token := u.refresh_token.getD r.refresh_token
    access_token := u.access_token.getD r.access_token
    token_expiry := u.token_expiry.getD r.token_expiry }

/-- `GoogleOAuthClient.exchange_code_for_tokens(code)` after `_read_dataset`
returned the record `store`: validate configuration, POST (the endpoint's
answer is `resp`), raise on non-200 carrying status and body, else persist
`access_token`, `token_expiry = now + (expires_in - 60)` and, only when the
response carried a non-empty one, `refresh_token`. -/
def exchange_code_for_tokens (store : OAuthRecord) (now : Int)
    (resp : HttpResponse) : OpOut OAuthRecord (String × String) :=
  if store.client_id = "" ∨ store.client_secret = "" then
    ⟨store, .error (.valueError "client_id or client_secret is missing in OAuthClient DataSet")⟩
  else if resp.statusCode ≠ 200 then
    ⟨store, .error (.httpError resp.statusCode (some resp.body))⟩
  else
    let access_token := resp.json.access_token.getD ""
    let refresh_token := resp.json.refresh_token.getD ""
    let expires_in := resp.json.expires_in.getD 0
    let expiry := now + (expires_in - 60)
    let update : OAuthUpdate :=
      { access_token := some access_token
        token_expiry := some (some expiry)
        refresh_token := if refresh_token ≠ "" then some refresh_token else Option.none }
    ⟨_write_dataset store update, .ok (access_token, refresh_token)⟩

/-- `GoogleOAuthClient.refresh_access_token()` on the record `store`:
requires a stored `refresh_token`, POSTs the refresh grant, raises on
non-200 carrying status and body, else persists `access_token` and
`token_expiry = now + (expires_in - 60)`; the update dict never contains a
`refresh_token` key. -/
def refresh_access_token (store : OAuthRecord) (now : Int)
    (resp : HttpResponse) : OpOut OAuthRecord String :=
  if store.refresh_token = "" then
    ⟨store, .error (.valueError "refresh_token is empty. Initial consent is required.")⟩
  else if resp.statusCode ≠ 200 then
    ⟨store, .error (.httpError resp.statusCode (some resp.body))⟩
  else
    let access_token := resp.json.access_token.getD ""
    let expires_in := resp.json.expires_in.getD 0
    let expiry := now + (expires_in - 60)
    ⟨_write_dataset store { access_token := some access_token, token_expiry := some (some expiry) },
     .ok access_token⟩

/-- `GoogleOAuthClient.get_valid_access_token()` on the record `store`:
refresh when the token is empty, the expiry is `None`, or
`expiry.before(now)`; otherwise return the cached token with no write and no
network call (`resp` is only consumed on the refresh path). -/
def get_valid_access_token (store : OAuthRecord) (now : Int)
    (resp : HttpResponse) : OpOut OAuthRecord String :=
  if store.access_token = "" then refresh_access_token store now resp
  else
    match store.token_expiry with
    | Option.none => refresh_access_token store now resp
    | some e => if e < now then refresh_access_token store now resp else ⟨store, .ok store.access_token⟩

end GoogleOAuthClient

/-- UTF-8 encoding of one character (`String(s).getBytes("UTF-8")`), as byte
values. -/
def utf8EncodeChar (c : Char) : List Nat :=
  let n := c.toNat
  if n < 128 then [n]
  else if n < 2048 then [192 + n / 64, 128 + n % 64]
  else if n < 65536 then [224 + n / 4096, 128 + (n / 64) % 64, 128 + n % 64]
  else [240 + n / 262144, 128 + (n / 4096) % 64, 128 + (n / 64) % 64, 128 + n % 64]

/-- UTF-8 bytes of a string. -/
def utf8Bytes (s : String) : List Nat :=
  s.data.foldr (fun c acc => utf8EncodeChar c ++ acc) []

/-- The base64url alphabet (RFC 4648 section 5), as used by
`java.util.Base64.getUrlEncoder()`. -/
def b64Char (v : Nat) : Char :=
  if v < 26 then Char.ofNat (65 + v)
  else if v < 52 then Char.ofNat (97 + (v - 26))
  else if v < 62 then Char.ofNat (48 + (v - 52))
  else if v = 62 then Char.ofNat 45
  else Char.ofNat 95

/-- Base64url encoding without padding
(`Base64.getUrlEncoder().withoutPadding().encodeToString`), three input
bytes per four output characters, with 2- or 3-character final groups and no
`=` padding. -/
def base64urlChars : List Nat → List Char
  | [] => []
  | [b1] => [b64Char (b1 / 4), b64Char ((b1 % 4) * 16)]
  | [b1, b2] => [b64Char (b1 / 4), b64Char ((b1 % 4) * 16 + b2 / 16), b64Char ((b2 % 16) * 4)]
  | b1 :: b2 :: b3 :: rest =>
      b64Char (b1 / 4) :: b64Char ((b1 % 4) * 16 + b2 / 16) ::
        b64Char ((b2 % 16) * 4 + b3 / 64) :: b64Char (b3 % 64) :: base64urlChars rest

/-- String form of the padding-free base64url encoding. -/
def base64url (bs : List Nat) : String := String.mk (base64urlChars bs)

/-- Value of one base64url alphabet character, `none` for a character outside
the alphabet (in particular for the padding character and the dot). -/
def b64CharVal (c : Char) : Option Nat :=
  let n := c.toNat
  if 65 ≤ n ∧ n ≤ 90 then some (n - 65)
  else if 97 ≤ n ∧ n ≤ 122 then some (26 + (n - 97))
  else if 48 ≤ n ∧ n ≤ 57 then some (52 + (n - 48))
  else if n = 45 then some 62
  else if n = 95 then some 63
  else Option.none

/-- Base64url decoding of a padding-free encoding, inverse of
`base64urlChars`; rejects stray trailing bits and invalid lengths. -/
def base64urlDecode : List Char → Option (List Nat)
  | [] => some []
  | [_] => Option.none
  | [c1, c2] =>
      match b64CharVal c1, b64CharVal c2 with
      | some v1, some v2 => if v2 % 16 = 0 then some [v1 * 4 + v2 / 16] else Option.none
      | _, _ => Option.none
  | [c1, c2, c3] =>
      match b64CharVal c1, b64CharVal c2, b64CharVal c3 with
      | some v1, some v2, some v3 =>
          if v3 % 4 = 0 then some [v1 * 4 + v2 / 16, (v2 % 16) * 16 + v3 / 4] else Option.none
      | _, _, _ => Option.none
  | c1 :: c2 :: c3 :: c4 :: rest =>
      match b64CharVal c1, b64CharVal c2, b64CharVal c3, b64CharVal c4, base64urlDecode rest with
      | some v1, some v2, some v3, some v4, some bs =>
          some ((v1 * 4 + v2 / 16) :: ((v2 % 16) * 16 + v3 / 4) :: ((v3 % 4) * 64 + v4) :: bs)
      | _, _, _, _, _ => Option.none

/-- One hexadecimal digit as emitted by `json.dumps` in `\uXXXX` escapes. -/
def hexDigit (n : Nat) : Char :=
  if n < 10 then Char.ofNat (48 + n) else Char.ofNat (87 + n)

/-- A `\uXXXX` escape for a code unit below 0x10000. -/
def uEscape4 (n : Nat) : String :=
  String.mk ['\\', 'u', hexDigit (n / 4096 % 16), hexDigit (n / 256 % 16),
    hexDigit (n / 16 % 16), hexDigit (n % 16)]

/-- `json.dumps` escaping of one character with the default `ensure_ascii`:
the two-character escapes, `\uXXXX` for other control or non-ASCII
characters (a surrogate pair above 0xFFFF), the character itself otherwise. -/
def jsonEscapeChar (c : Char) : String :=
  if c = '"' then "\\\""
  else if c = '\\' then "\\\\"
  else if c = '\n' then "\\n"
  else if c = '\t' then "\\t"
  else if c = '\r' then "\\r"
  else if c.toNat = 8 then "\\b"
  else if c.toNat = 12 then "\\f"
  else if c.toNat < 32 ∨ 126 < c.toNat then
    if c.toNat < 65536 then uEscape4 c.toNat
    else uEscape4 (55296 + (c.toNat - 65536) / 1024) ++ uEscape4 (56320 + (c.toNat - 65536) % 1024)
  else String.mk [c]

/-- `json.dumps` of a string value. -/
def jsonString (s : String) : String :=
  "\"" ++ String.join (s.data.map jsonEscapeChar) ++ "\""

/-- `json.dumps(header, separators=(",", ":"))` for the literal
`header = {"alg": "RS256", "typ": "JWT"}`. -/
def headerJson : String := "\x7b\"alg\":\"RS256\",\"typ\":\"JWT\"\x7d"

/-- `json.dumps(claim_set, separators=(",", ":"))` for the claim set
`{"iss": client_email, "scope": scope, "aud": token_uri, "iat": iat, "exp": expv}`,
in the literal's key order. -/
def claimsJson (iss scope aud : String) (iat expv : Int) : String :=
  "\x7b\"iss\":" ++ jsonString iss ++ ",\"scope\":" ++ jsonString scope ++
    ",\"aud\":" ++ jsonString aud ++ ",\"iat\":" ++ toString iat ++
    ",\"exp\":" ++ toString expv ++ "\x7d"

/-- The `java.security` RSA signing service used via
`Signature.getInstance("SHA256withRSA")` after `initSign(privateKey)`: `sign`
maps the input bytes to the signature bytes for the private key loaded from
the record, `verify` is verification of those bytes under the corresponding
public key.  The Java library contract relating the two is assumed as a
hypothesis where needed. -/
structure SignatureEnv where
  sign : List Nat → List Nat
  verify : List Nat → List Nat → Bool

namespace GoogleServiceAccountClient

/-- `GoogleServiceAccountClient._read_dataset`: when the tag holds no
DataSet (or no rows) the default row is written back and the function
returns `default_ds` itself — the raw DataSet object — whereas a populated
tag is returned as the first row's field dict. -/
def _read_dataset (stored : Option SARecord) (now : Int) : ReadOut SARecord :=
  match stored with
  | Option.none =>
      let d : SARecord := ⟨"", "", "", some now⟩
      ⟨some d, .dataset d⟩
  | some r => ⟨some r, .dict r⟩

/-- `GoogleServiceAccountClient._write_dataset`: update the first row,
column by column, applying only the keys present in the `values` dict. -/
def _write_dataset (r : SARecord) (u : SAUpdate) : SARecord :=
  { client_email := u.client_email.getD r.client_email
    private_key := u.private_key.getD r.private_key
    access_token := u.access_token.getD r.access_token
    token_expiry := u.token_expiry.getD r.token_expiry }

/-- `GoogleServiceAccountClient._build_jwt_assertion(client_email, private_key_pem)`
with configured `scope` and `token_uri`, at wall-clock time `now_ms`
(milliseconds, `system.date.now().getTime()`): validates the inputs, derives
`iat = now_ms / 1000` (Python floor division) and `exp = iat + 3600`,
serializes header and claims compactly, base64url-encodes both without
padding, signs `header_b64 + "." + claims_b64` with RSA-SHA256 over its
UTF-8 bytes, and appends the base64url signature. -/
def _build_jwt_assertion (env : SignatureEnv) (scope token_uri : String)
    (client_email private_key_pem : String) (now_ms : Int) : Except AuthError String :=
  if client_email = "" then
    .error (.valueError "client_email is empty in ServiceAccount DataSet")
  else if scope = "" then
    .error (.valueError "Scope parameter is empty in UDT Parameters")
  else if private_key_pem = "" then
    .error (.valueError "private_key is empty in ServiceAccount DataSet")
  else
    let now_sec := Int.fdiv now_ms 1000
    let exp_sec := now_sec + 3600
    let header_b64 := base64url (utf8Bytes headerJson)
    let claims_b64 := base64url (utf8Bytes (claimsJson client_email scope token_uri now_sec exp_sec))
    let signing_input := header_b64 ++ "." ++ claims_b64
    let signature := env.sign (utf8Bytes signing_input)
    .ok (signing_input ++ "." ++ base64url signature)

/-- `GoogleServiceAccountClient._request_access_token()` on the record
`store`: build the JWT assertion (at time `jwt_now_ms`), POST the jwt-bearer
grant, raise on non-200 with a message carrying only the status, else
persist `access_token` and `token_expiry = now + (expires_in - 60)` with
`expires_in` defaulting to 3600. -/
def _request_access_token (env : SignatureEnv) (scope token_uri : String)
    (store : SARecord) (jwt_now_ms now : Int) (resp : HttpResponse) : OpOut SARecord String :=
  match _build_jwt_assertion env scope token_uri store.client_email store.private_key jwt_now_ms with
  | .error e => ⟨store, .error e⟩
  | .ok _assertion =>
      if resp.statusCode ≠ 200 then
        ⟨store, .error (.httpError resp.statusCode Option.none)⟩
      else
        let access_token := resp.json.access_token.getD ""
        let expires_in := resp.json.expires_in.getD 3600
        let expiry := now + (expires_in - 60)
        ⟨_write_dataset store { access_token := some access_token, token_expiry := some (some expiry) },
         .ok access_token⟩

/-- `GoogleServiceAccountClient.get_valid_access_token()`: same freshness
gate as the OAuth client, delegating to `_request_access_token` on a miss. -/
def get_valid_access_token (env : SignatureEnv) (scope token_uri : String)
    (store : SARecord) (jwt_now_ms now : Int) (resp : HttpResponse) : OpOut SARecord String :=
  if store.access_token = "" then _request_access_token env scope token_uri store jwt_now_ms now resp
  else
    match store.token_expiry with
    | Option.none => _request_access_token env scope token_uri store jwt_now_ms now resp
    | some e =>
        if e < now then _request_access_token env scope token_uri store jwt_now_ms now resp
        else ⟨store, .ok store.access_token⟩

end GoogleServiceAccountClient

/-- `_to_column_letters` loop body from `google_sheets/code.py`: repeated
`divmod(n - 1, 26)` prepending `chr(ord("A") + rem)`. -/
def colLettersAux : Nat → List Char
  | 0 => []
  | n + 1 => colLettersAux (n / 26) ++ [Char.ofNat (65 + n % 26)]
decreasing_by exact Nat.lt_succ_of_le (Nat.div_le_self n 26)

/-- `_to_column_letters(n)`: 1-based column index to Excel-style letters;
non-positive input yields the empty string. -/
def _to_column_letters (n : Nat) : String := String.mk (colLettersAux n)

/-- Value of a letter string in bijective base 26 (`A`=1 … `Z`=26); the left
inverse used to show `_to_column_letters` is injective. -/
def colVal (cs : List Char) : Nat :=
  cs.foldl (fun a c => a * 26 + (c.toNat - 64)) 0

theorem char_toNat_ofNat (n : Nat) (h : n < 55296) : (Char.ofNat n).toNat = n := by
  unfold Char.ofNat Char.toNat Char.ofNatAux
  simp [Nat.isValidChar, h, UInt32.toNat, BitVec.toNat_ofNat]

theorem colVal_append (cs : List Char) (c : Char) :
    colVal (cs ++ [c]) = colVal cs * 26 + (c.toNat - 64) := by
  unfold colVal
  simp [List.foldl_append]

theorem colVal_colLettersAux (n : Nat) : colVal (colLettersAux n) = n := by
  induction n using Nat.strong_induction_on with
  | _ n ih =>
    match n with
    | 0 => simp [colLettersAux, colVal]
    | m + 1 =>
      rw [colLettersAux, colVal_append,
        ih (m / 26) (Nat.lt_succ_of_le (Nat.div_le_self m 26)),
        char_toNat_ofNat (65 + m % 26) (by omega)]
      omega

/-- C10: `_to_column_letters` is an injection from the positive integers
into Excel-style column letters, with `_to_column_letters 1 = "A"`,
`_to_column_letters 26 = "Z"`, `_to_column_letters 27 = "AA"` and
`_to_column_letters 28 = "AB"`. -/
theorem to_column_letters_injective (m n : Nat) (hm : 0 < m) (hn : 0 < n) :
    (_to_column_letters m = _to_column_letters n → m = n) ∧
    _to_column_letters 1 = "A" ∧ _to_column_letters 26 = "Z" ∧
    _to_column_letters 27 = "AA" ∧ _to_column_letters 28 = "AB" := by
  refine ⟨fun h => ?_, by norm_num [_to_column_letters, colLettersAux],
    by norm_num [_to_column_letters, colLettersAux],
    by norm_num [_to_column_letters, colLettersAux],
    by norm_num [_to_column_letters, colLettersAux]⟩
  have hdata : colLettersAux m = colLettersAux n := congrArg String.data h
  rw [← colVal_colLettersAux m, ← colVal_colLettersAux n, hdata]

/-- Witness for C10 at the concrete pair 27, 28. -/
theorem to_column_letters_injective_witness :
    (_to_column_letters 27 = _to_column_letters 28 → 27 = 28) ∧
    _to_column_letters 1 = "A" ∧ _to_column_letters 26 = "Z" ∧
    _to_column_letters 27 = "AA" ∧ _to_column_letters 28 = "AB" :=
  to_column_letters_injective 27 28 (by decide) (by decide)

theorem b64CharVal_b64Char : ∀ v, v < 64 → b64CharVal (b64Char v) = some v := by decide

theorem b64Char_ne : ∀ v, v < 64 → b64Char v ≠ '=' ∧ b64Char v ≠ '.' := by decide

theorem base64url_decode_encode (bs : List Nat) (h : ∀ b ∈ bs, b < 256) :
    base64urlDecode (base64urlChars bs) = some bs := by
  induction bs using base64urlChars.induct with
  | case1 => rfl
  | case2 b1 =>
    have h1 : b1 < 256 := h b1 (by simp)
    simp only [base64urlChars, base64urlDecode,
      b64CharVal_b64Char (b1 / 4) (by omega),
      b64CharVal_b64Char ((b1 % 4) * 16) (by omega)]
    rw [if_pos (by omega)]
    simp only [Option.some.injEq, List.cons.injEq, and_true]
    omega
  | case3 b1 b2 =>
    have h1 : b1 < 256 := h b1 (by simp)
    have h2 : b2 < 256 := h b2 (by simp)
    simp only [base64urlChars, base64urlDecode,
      b64CharVal_b64Char (b1 / 4) (by omega),
      b64CharVal_b64Char ((b1 % 4) * 16 + b2 / 16) (by omega),
      b64CharVal_b64Char ((b2 % 16) * 4) (by omega)]
    rw [if_pos (by omega)]
    simp only [Option.some.injEq, List.cons.injEq, and_true]
    constructor
    · omega
    · omega
  | case4 b1 b2 b3 rest ih =>
    have h1 : b1 < 256 := h b1 (by simp)
    have h2 : b2 < 256 := h b2 (by simp)
    have h3 : b3 < 256 := h b3 (by simp)
    have hrest : ∀ b ∈ rest, b < 256 := fun b hb => h b (by simp [hb])
    simp only [base64urlChars, base64urlDecode,
      b64CharVal_b64Char (b1 / 4) (by omega),
      b64CharVal_b64Char ((b1 % 4) * 16 + b2 / 16) (by omega),
      b64CharVal_b64Char ((b2 % 16) * 4 + b3 / 64) (by omega),
      b64CharVal_b64Char (b3 % 64) (by omega), ih hrest]
    simp only [Option.some.injEq, List.cons.injEq]
    refine ⟨by omega, by omega, by omega, trivial⟩

theorem base64urlChars_no_pad (bs : List Nat) (h : ∀ b ∈ bs, b < 256) :
    ∀ c ∈ base64urlChars bs, c ≠ '=' ∧ c ≠ '.' := by
  induction bs using base64urlChars.induct with
  | case1 => simp [base64urlChars]
  | case2 b1 =>
    have h1 : b1 < 256 := h b1 (by simp)
    intro c hc
    simp only [base64urlChars, List.mem_cons, List.mem_singleton, List.not_mem_nil] at hc
    rcases hc with rfl | rfl | hc
    · exact b64Char_ne (b1 / 4) (by omega)
    · exact b64Char_ne ((b1 % 4) * 16) (by omega)
    · simp at hc
  | case3 b1 b2 =>
    have h1 : b1 < 256 := h b1 (by simp)
    have h2 : b2 < 256 := h b2 (by simp)
    intro c hc
    simp only [base64urlChars, List.mem_cons, List.not_mem_nil] at hc
    rcases hc with rfl | rfl | rfl | hc
    · exact b64Char_ne (b1 / 4) (by omega)
    · exact b64Char_ne ((b1 % 4) * 16 + b2 / 16) (by omega)
    · exact b64Char_ne ((b2 % 16) * 4) (by omega)
    · simp at hc
  | case4 b1 b2 b3 rest ih =>
    have h1 : b1 < 256 := h b1 (by simp)
    have h2 : b2 < 256 := h b2 (by simp)
    have h3 : b3 < 256 := h b3 (by simp)
    have hrest : ∀ b ∈ rest, b < 256 := fun b hb => h b (by simp [hb])
    intro c hc
    simp only [base64urlChars, List.mem_cons] at hc
    rcases hc with rfl | rfl | rfl | rfl | hc
    · exact b64Char_ne (b1 / 4) (by omega)
    · exact b64Char_ne ((b1 % 4) * 16 + b2 / 16) (by omega)
    · exact b64Char_ne ((b2 % 16) * 4 + b3 / 64) (by omega)
    · exact b64Char_ne (b3 % 64) (by omega)
    · exact ih hrest c hc

theorem char_toNat_lt (c : Char) : c.toNat < 1114112 := by
  rcases c.valid with h | ⟨_, h⟩
  · exact lt_trans h (by norm_num)
  · exact h

theorem utf8EncodeChar_lt (c : Char) : ∀ b ∈ utf8EncodeChar c, b < 256 := by
  have hv := char_toNat_lt c
  unfold utf8EncodeChar
  simp only []
  split_ifs with h1 h2 h3 <;> intro b hb <;> simp only [List.mem_cons, List.not_mem_nil, or_false] at hb
  · omega
  · rcases hb with rfl | rfl <;> omega
  · rcases hb with rfl | rfl | rfl <;> omega
  · rcases hb with rfl | rfl | rfl | rfl <;> omega

theorem utf8Bytes_lt (s : String) : ∀ b ∈ utf8Bytes s, b < 256 := by
  unfold utf8Bytes
  generalize s.data = l
  induction l with
  | nil => simp
  | cons c cs ih =>
    intro b hb
    simp only [List.foldr_cons, List.mem_append] at hb
    rcases hb with hb | hb
    · exact utf8EncodeChar_lt c b hb
    · exact ih b hb

/-- C9: for every non-empty `client_email`, `private_key` and configured
scope, `_build_jwt_assertion` produces `header_b64.claims_b64.signature_b64`
where the header segment is the padding-free base64url encoding of the
compact JSON header with `alg` RS256 and `typ` JWT, the claims segment
encodes the compact JSON claims with `iss = client_email`, `scope`,
`aud = token_uri` and integer `iat`, `exp` with `exp - iat = 3600`, both
segments decode back to exactly those JSON bytes and contain no padding
character, and the third segment encodes the RSA-SHA256 signature over the
UTF-8 bytes of `header_b64 ++ "." ++ claims_b64`, which verifies under the
corresponding public key (the `java.security` contract relating `sign` and
`verify` is the hypothesis `hverify`). -/
theorem build_jwt_assertion_wellformed (env : SignatureEnv)
    (scope token_uri client_email pem : String) (now_ms : Int)
    (hemail : client_email ≠ "") (hscope : scope ≠ "") (hpem : pem ≠ "")
    (hverify : ∀ m, env.verify m (env.sign m) = true)
    (hsignbytes : ∀ m, ∀ b ∈ env.sign m, b < 256) :
    ∃ header_b64 claims_b64 sig,
      header_b64 = base64url (utf8Bytes headerJson) ∧
      claims_b64 = base64url (utf8Bytes (claimsJson client_email scope token_uri
        (Int.fdiv now_ms 1000) (Int.fdiv now_ms 1000 + 3600))) ∧
      sig = env.sign (utf8Bytes (header_b64 ++ "." ++ claims_b64)) ∧
      GoogleServiceAccountClient._build_jwt_assertion env scope token_uri client_email pem now_ms
        = .ok (header_b64 ++ "." ++ claims_b64 ++ "." ++ base64url sig) ∧
      (Int.fdiv now_ms 1000 + 3600) - Int.fdiv now_ms 1000 = 3600 ∧
      env.verify (utf8Bytes (header_b64 ++ "." ++ claims_b64)) sig = true ∧
      base64urlDecode (base64url sig).data = some sig ∧
      base64urlDecode header_b64.data = some (utf8Bytes headerJson) ∧
      base64urlDecode claims_b64.data = some (utf8Bytes (claimsJson client_email scope token_uri
        (Int.fdiv now_ms 1000) (Int.fdiv now_ms 1000 + 3600))) ∧
      (∀ c ∈ header_b64.data, c ≠ '=' ∧ c ≠ '.') ∧
      (∀ c ∈ claims_b64.data, c ≠ '=' ∧ c ≠ '.') ∧
      (∀ c ∈ (base64url sig).data, c ≠ '=' ∧ c ≠ '.') := by
  refine ⟨_, _, _, rfl, rfl, rfl, ?_, by omega, hverify _, ?_, ?_, ?_, ?_, ?_, ?_⟩
  · unfold GoogleServiceAccountClient._build_jwt_assertion
    rw [if_neg hemail, if_neg hscope, if_neg hpem]
  · exact base64url_decode_encode _ (hsignbytes _)
  · exact base64url_decode_encode _ (utf8Bytes_lt _)
  · exact base64url_decode_encode _ (utf8Bytes_lt _)
  · exact base64urlChars_no_pad _ (utf8Bytes_lt _)
  · exact base64urlChars_no_pad _ (utf8Bytes_lt _)
  · exact base64urlChars_no_pad _ (hsignbytes _)

/-- Witness for C9 at a concrete signature environment, credential and time. -/
theorem build_jwt_assertion_wellformed_witness :
    ∃ header_b64 claims_b64 sig,
      header_b64 = base64url (utf8Bytes headerJson) ∧
      claims_b64 = base64url (utf8Bytes (claimsJson "svc@example.iam" "sc" "https://oauth2.googleapis.com/token"
        (Int.fdiv 0 1000) (Int.fdiv 0 1000 + 3600))) ∧
      sig = (fun _ => [0]) (utf8Bytes (header_b64 ++ "." ++ claims_b64)) ∧
      GoogleServiceAccountClient._build_jwt_assertion ⟨fun _ => [0], fun _ s => s == [0]⟩
          "sc" "https://oauth2.googleapis.com/token" "svc@example.iam" "PEMKEY" 0
        = .ok (header_b64 ++ "." ++ claims_b64 ++ "." ++ base64url sig) ∧
      (Int.fdiv 0 1000 + 3600) - Int.fdiv 0 1000 = 3600 ∧
      (fun _ s => s == [0]) (utf8Bytes (header_b64 ++ "." ++ claims_b64)) sig = true ∧
      base64urlDecode (base64url sig).data = some sig ∧
      base64urlDecode header_b64.data = some (utf8Bytes headerJson) ∧
      base64urlDecode claims_b64.data = some (utf8Bytes (claimsJson "svc@example.iam" "sc" "https://oauth2.googleapis.com/token"
        (Int.fdiv 0 1000) (Int.fdiv 0 1000 + 3600))) ∧
      (∀ c ∈ header_b64.data, c ≠ '=' ∧ c ≠ '.') ∧
      (∀ c ∈ claims_b64.data, c ≠ '=' ∧ c ≠ '.') ∧
      (∀ c ∈ (base64url sig).data, c ≠ '=' ∧ c ≠ '.') :=
  build_jwt_assertion_wellformed ⟨fun _ => [0], fun _ s => s == [0]⟩
    "sc" "https://oauth2.googleapis.com/token" "svc@example.iam" "PEMKEY" 0
    (by decide) (by decide) (by decide)
    (fun _ => rfl)
    (by intro m b hb; simp only [List.mem_singleton] at hb; omega)

/-- Branch analysis of `doGetAfterNorm`: when the call returned normally,
the exchange path implies the session slot was cleared and any replay with a
cleared slot fails validation; the invalid-state page leaves the slot
unchanged. -/
theorem doGetAfterNorm_props (code0 error0 state : PyVal) (sess : Option String)
    (exch : Except Unit (String × String)) (out : DoGetOut)
    (h : doGetAfterNorm code0 error0 state sess exch = .ok out) :
    (out.exchangeCalled = true →
      out.sessionAfter = Option.none ∧
      ∀ exch2, doGetAfterNorm code0 error0 state Option.none exch2
        = .ok ⟨400, .invalidState, Option.none, false, Option.none⟩) ∧
    (out.page = .invalidState → out.sessionAfter = sess) := by
  unfold doGetAfterNorm at h
  by_cases he : error0.truthy = true
  · rw [if_pos he] at h
    obtain rfl := Except.ok.inj h
    exact ⟨fun hx => by simp at hx, fun _ => rfl⟩
  · rw [if_neg he] at h
    by_cases hc : (!code0.truthy) = true
    · rw [if_pos hc] at h
      obtain rfl := Except.ok.inj h
      exact ⟨fun hx => by simp at hx, fun _ => rfl⟩
    · rw [if_neg hc] at h
      by_cases hs : (!state.truthy || !(sessTruthy sess) || !(pyEqOptStr state sess)) = true
      · rw [if_pos hs] at h
        obtain rfl := Except.ok.inj h
        exact ⟨fun hx => by simp at hx, fun _ => rfl⟩
      · rw [if_neg hs] at h
        have hreplay : ∀ exch2, doGetAfterNorm code0 error0 state Option.none exch2
            = .ok ⟨400, .invalidState, Option.none, false, Option.none⟩ := by
          intro exch2
          unfold doGetAfterNorm
          rw [if_neg he, if_neg hc, if_pos (by simp [sessTruthy])]
        cases hcode : (if code0.isList then code0.item0 else Except.ok code0) with
        | error e =>
          rw [hcode] at h
          simp at h
        | ok code =>
          rw [hcode] at h
          cases exch with
          | ok v =>
            obtain rfl := Except.ok.inj h
            exact ⟨fun _ => ⟨rfl, hreplay⟩, fun hp => by simp at hp⟩
          | error v =>
            obtain rfl := Except.ok.inj h
            exact ⟨fun _ => ⟨rfl, hreplay⟩, fun hp => by simp at hp⟩

/-- C1: evaluation of the redirect handler at the failing input for the
CSRF claim.  The caller's `state` parameter is the scalar "ab", the
session's stored value is "a" (they differ, so the claim demands status 400
and no exchange), and `code` arrives as the single-element list ["c"]; the
source's step-0 slip `state = state[0]` truncates the state to "a",
validation passes and `exchange_code_for_tokens` is called with status
200. -/
theorem doGet_c1_eval :
    doGet (.list ["c"]) .pynone (.str "ab") (some "a") (.ok ("tok", "ref"))
      = .ok ⟨200, .success, Option.none, true, some (.str "c")⟩ := rfl

/-- C3: counterexample to the list-normalization claim.  With
`code = ["c"]`, scalar `state = "ab"` and stored session state "ab", the
handler returns 400 without exchanging, while the scalar form `code = "c"`
of the very same request exchanges the code with status 200 — so a
single-element-list `code` is not handled as its scalar first element. -/
theorem doGet_c3_counterexample :
    doGet (.list ["c"]) .pynone (.str "ab") (some "ab") (.ok ("tok", "ref"))
      = .ok ⟨400, .invalidState, some "ab", false, Option.none⟩ ∧
    doGet (.str "c") .pynone (.str "ab") (some "ab") (.ok ("tok", "ref"))
      = .ok ⟨200, .success, Option.none, true, some (.str "c")⟩ := ⟨rfl, rfl⟩

/-- C2 counterexample: a callback that reaches state validation and fails it
(`state = "x"` vs stored "y") returns with the session's stored state entry
still present (`some "y"`), not deleted, refuting the claim that the entry
is deleted on both validation outcomes. -/
theorem doGet_c2_counterexample :
    ¬ ((doGet (.str "c") .pynone (.str "x") (some "y") (.ok ("tok", "ref"))).map
        DoGetOut.sessionAfter = .ok Option.none) := by decide

/-- C2 (amended): the session's `google_oauth_state` entry is deleted
exactly when state validation succeeds (equivalently, when the handler goes
on to call `exchange_code_for_tokens`): on that path the entry is gone
afterwards and replaying the exact same callback request fails validation
with status 400 and no exchange; when validation fails the stored entry is
left unchanged. -/
theorem doGet_state_deleted_iff_valid (code0 error0 state0 : PyVal) (sess : Option String)
    (exch : Except Unit (String × String)) (out : DoGetOut)
    (h : doGet code0 error0 state0 sess exch = .ok out) :
    (out.exchangeCalled = true →
      out.sessionAfter = Option.none ∧
      ∀ exch2, doGet code0 error0 state0 Option.none exch2
        = .ok ⟨400, .invalidState, Option.none, false, Option.none⟩) ∧
    (out.page = .invalidState → out.sessionAfter = sess) := by
  unfold doGet at h ⊢
  cases hn : normState code0 state0 with
  | error e => rw [hn] at h; simp at h
  | ok state =>
    rw [hn] at h
    have hprops := doGetAfterNorm_props code0 error0 state sess exch out h
    refine ⟨fun hx => ⟨(hprops.1 hx).1, fun exch2 => ?_⟩, hprops.2⟩
    exact (hprops.1 hx).2 exch2

/-- Witness for C2 (amended) at a concrete successful callback. -/
theorem doGet_state_deleted_iff_valid_witness :
    ((DoGetOut.mk 200 .success Option.none true (some (.str "c"))).exchangeCalled = true →
      (DoGetOut.mk 200 .success Option.none true (some (.str "c"))).sessionAfter = Option.none ∧
      ∀ exch2, doGet (.str "c") .pynone (.str "s") Option.none exch2
        = .ok ⟨400, .invalidState, Option.none, false, Option.none⟩) ∧
    ((DoGetOut.mk 200 .success Option.none true (some (.str "c"))).page = .invalidState →
      (DoGetOut.mk 200 .success Option.none true (some (.str "c"))).sessionAfter = some "s") :=
  doGet_state_deleted_iff_valid (.str "c") .pynone (.str "s") (some "s") (.ok ("tok", "ref"))
    ⟨200, .success, Option.none, true, some (.str "c")⟩ rfl

/-- C4 (amended): in both credential managers, `get_valid_access_token`
returns the stored token unchanged — no store write, no network call (the
result is `⟨store, .ok token⟩` for every possible endpoint response) — when
the token is non-empty, the expiry is set and `now ≤ token_expiry`
(including the boundary `token_expiry = now`); it delegates to the
refresh/request path exactly when the token is empty, the expiry is unset,
or `token_expiry` is strictly before `now`. -/
theorem get_valid_access_token_freshness
    (store : OAuthRecord) (sstore : SARecord) (env : SignatureEnv) (scope token_uri : String)
    (jwt_now_ms now : Int) (resp : HttpResponse) :
    (∀ e, store.access_token ≠ "" → store.token_expiry = some e → now ≤ e →
      GoogleOAuthClient.get_valid_access_token store now resp = ⟨store, .ok store.access_token⟩) ∧
    (store.access_token = "" ∨ store.token_expiry = Option.none ∨
        (∃ e, store.token_expiry = some e ∧ e < now) →
      GoogleOAuthClient.get_valid_access_token store now resp
        = GoogleOAuthClient.refresh_access_token store now resp) ∧
    (∀ e, sstore.access_token ≠ "" → sstore.token_expiry = some e → now ≤ e →
      GoogleServiceAccountClient.get_valid_access_token env scope token_uri sstore jwt_now_ms now resp
        = ⟨sstore, .ok sstore.access_token⟩) ∧
    (sstore.access_token = "" ∨ sstore.token_expiry = Option.none ∨
        (∃ e, sstore.token_expiry = some e ∧ e < now) →
      GoogleServiceAccountClient.get_valid_access_token env scope token_uri sstore jwt_now_ms now resp
        = GoogleServiceAccountClient._request_access_token env scope token_uri sstore jwt_now_ms now resp) := by
  refine ⟨?_, ?_, ?_, ?_⟩
  · intro e h1 h2 h3
    unfold GoogleOAuthClient.get_valid_access_token
    rw [if_neg h1, h2]
    simp [not_lt.mpr h3]
  · intro hmiss
    unfold GoogleOAuthClient.get_valid_access_token
    rcases hmiss with h1 | h2 | ⟨e, h2, h3⟩
    · rw [if_pos h1]
    · by_cases h1 : store.access_token = ""
      · rw [if_pos h1]
      · rw [if_neg h1, h2]
    · by_cases h1 : store.access_token = ""
      · rw [if_pos h1]
      · rw [if_neg h1, h2]
        simp [h3]
  · intro e h1 h2 h3
    unfold GoogleServiceAccountClient.get_valid_access_token
    rw [if_neg h1, h2]
    simp [not_lt.mpr h3]
  · intro hmiss
    unfold GoogleServiceAccountClient.get_valid_access_token
    rcases hmiss with h1 | h2 | ⟨e, h2, h3⟩
    · rw [if_pos h1]
    · by_cases h1 : sstore.access_token = ""
      · rw [if_pos h1]
      · rw [if_neg h1, h2]
    · by_cases h1 : sstore.access_token = ""
      · rw [if_pos h1]
      · rw [if_neg h1, h2]
        simp [h3]

/-- C4 counterexample: at the boundary `token_expiry = now` (both 100) the
code returns the cached token and does not delegate — the refresh path
would have produced a different outcome (here a `ValueError`, the stored
`refresh_token` being empty) — refuting the claim's
"including the boundary case token_expiry == now". -/
theorem get_valid_access_token_boundary_counterexample :
    GoogleOAuthClient.get_valid_access_token ⟨"id", "sec", "", "tok", some 100⟩ 100
        ⟨200, ⟨some "new", Option.none, some 3600⟩, "body"⟩
      = ⟨⟨"id", "sec", "", "tok", some 100⟩, .ok "tok"⟩ ∧
    GoogleOAuthClient.refresh_access_token ⟨"id", "sec", "", "tok", some 100⟩ 100
        ⟨200, ⟨some "new", Option.none, some 3600⟩, "body"⟩
      = ⟨⟨"id", "sec", "", "tok", some 100⟩,
         .error (.valueError "refresh_token is empty. Initial consent is required.")⟩ ∧
    GoogleOAuthClient.get_valid_access_token ⟨"id", "sec", "", "tok", some 100⟩ 100
        ⟨200, ⟨some "new", Option.none, some 3600⟩, "body"⟩
      ≠ GoogleOAuthClient.refresh_access_token ⟨"id", "sec", "", "tok", some 100⟩ 100
        ⟨200, ⟨some "new", Option.none, some 3600⟩, "body"⟩ := by
  refine ⟨rfl, rfl, ?_⟩
  intro h
  have h2 := congrArg (fun o => o.result) h
  simp [GoogleOAuthClient.get_valid_access_token, GoogleOAuthClient.refresh_access_token] at h2

/-- Witness for C4 (amended): concrete cached-token and delegation instances
for both managers. -/
theorem get_valid_access_token_freshness_witness :
    GoogleOAuthClient.get_valid_access_token ⟨"id", "sec", "rt", "tok", some 200⟩ 100
        ⟨200, ⟨some "new", Option.none, some 3600⟩, "body"⟩
      = ⟨⟨"id", "sec", "rt", "tok", some 200⟩, .ok "tok"⟩ ∧
    GoogleOAuthClient.get_valid_access_token ⟨"id", "sec", "rt", "", some 200⟩ 100
        ⟨200, ⟨some "new", Option.none, some 3600⟩, "body"⟩
      = GoogleOAuthClient.refresh_access_token ⟨"id", "sec", "rt", "", some 200⟩ 100
        ⟨200, ⟨some "new", Option.none, some 3600⟩, "body"⟩ ∧
    GoogleServiceAccountClient.get_valid_access_token ⟨fun _ => [0], fun _ _ => true⟩ "sc" "uri"
        ⟨"svc@example.iam", "PEMKEY", "tok", some 200⟩ 0 100
        ⟨200, ⟨some "new", Option.none, some 3600⟩, "body"⟩
      = ⟨⟨"svc@example.iam", "PEMKEY", "tok", some 200⟩, .ok "tok"⟩ ∧
    GoogleServiceAccountClient.get_valid_access_token ⟨fun _ => [0], fun _ _ => true⟩ "sc" "uri"
        ⟨"svc@example.iam", "PEMKEY", "tok", some 50⟩ 0 100
        ⟨200, ⟨some "new", Option.none, some 3600⟩, "body"⟩
      = GoogleServiceAccountClient._request_access_token ⟨fun _ => [0], fun _ _ => true⟩ "sc" "uri"
        ⟨"svc@example.iam", "PEMKEY", "tok", some 50⟩ 0 100
        ⟨200, ⟨some "new", Option.none, some 3600⟩, "body"⟩ := by
  refine ⟨?_, ?_, ?_, ?_⟩
  · exact (get_valid_access_token_freshness ⟨"id", "sec", "rt", "tok", some 200⟩
      ⟨"svc@example.iam", "PEMKEY", "tok", some 200⟩ ⟨fun _ => [0], fun _ _ => true⟩ "sc" "uri" 0 100
      ⟨200, ⟨some "new", Option.none, some 3600⟩, "body"⟩).1 200 (by decide) rfl (by decide)
  · exact (get_valid_access_token_freshness ⟨"id", "sec", "rt", "", some 200⟩
      ⟨"svc@example.iam", "PEMKEY", "tok", some 200⟩ ⟨fun _ => [0], fun _ _ => true⟩ "sc" "uri" 0 100
      ⟨200, ⟨some "new", Option.none, some 3600⟩, "body"⟩).2.1 (Or.inl rfl)
  · exact (get_valid_access_token_freshness ⟨"id", "sec", "rt", "tok", some 200⟩
      ⟨"svc@example.iam", "PEMKEY", "tok", some 200⟩ ⟨fun _ => [0], fun _ _ => true⟩ "sc" "uri" 0 100
      ⟨200, ⟨some "new", Option.none, some 3600⟩, "body"⟩).2.2.1 200 (by decide) rfl (by decide)
  · exact (get_valid_access_token_freshness ⟨"id", "sec", "rt", "tok", some 200⟩
      ⟨"svc@example.iam", "PEMKEY", "tok", some 50⟩ ⟨fun _ => [0], fun _ _ => true⟩ "sc" "uri" 0 100
      ⟨200, ⟨some "new", Option.none, some 3600⟩, "body"⟩).2.2.2 (Or.inr (Or.inr ⟨50, rfl, by decide⟩))

/-- C5 (amended): on a non-2xx token-endpoint response,
`exchange_code_for_tokens` and `refresh_access_token` raise an error
carrying the status and the response body, `_request_access_token` raises
an error carrying only the status (its message omits the body), and in all
three the stored credential record is completely unchanged
(`storeAfter = store`); the write-back happens only after a parsed 200
response. -/
theorem non2xx_preserves_store
    (store : OAuthRecord) (sstore : SARecord) (env : SignatureEnv) (scope token_uri : String)
    (jwt_now_ms now : Int) (resp : HttpResponse)
    (hstatus : ¬ (200 ≤ resp.statusCode ∧ resp.statusCode < 300)) :
    (store.client_id ≠ "" → store.client_secret ≠ "" →
      GoogleOAuthClient.exchange_code_for_tokens store now resp
        = ⟨store, .error (.httpError resp.statusCode (some resp.body))⟩) ∧
    (store.refresh_token ≠ "" →
      GoogleOAuthClient.refresh_access_token store now resp
        = ⟨store, .error (.httpError resp.statusCode (some resp.body))⟩) ∧
    (sstore.client_email ≠ "" → scope ≠ "" → sstore.private_key ≠ "" →
      GoogleServiceAccountClient._request_access_token env scope token_uri sstore jwt_now_ms now resp
        = ⟨sstore, .error (.httpError resp.statusCode Option.none)⟩) := by
  have hne : resp.statusCode ≠ 200 := by omega
  refine ⟨fun h1 h2 => ?_, fun h1 => ?_, fun h1 h2 h3 => ?_⟩
  · unfold GoogleOAuthClient.exchange_code_for_tokens
    rw [if_neg (by simp [h1, h2]), if_pos hne]
  · unfold GoogleOAuthClient.refresh_access_token
    rw [if_neg h1, if_pos hne]
  · unfold GoogleServiceAccountClient._request_access_token
      GoogleServiceAccountClient._build_jwt_assertion
    rw [if_neg h1, if_neg h2, if_neg h3]
    simp only []
    rw [if_pos hne]

/-- C5 counterexample: on a 401 during the service-account grant the raised
error is `httpError 401 none` — the message
`"ServiceAccount token request failed: HTTP %s" % status` carries no body —
refuting the claim that all three operations raise an error carrying status
and body. -/
theorem sa_error_lacks_body_counterexample :
    (GoogleServiceAccountClient._request_access_token ⟨fun _ => [0], fun _ _ => true⟩ "sc" "uri"
        ⟨"svc@example.iam", "PEMKEY", "", Option.none⟩ 0 0
        ⟨401, ⟨Option.none, Option.none, Option.none⟩, "errorbody"⟩).result
      = .error (.httpError 401 Option.none) ∧
    (AuthError.httpError 401 Option.none) ≠ .httpError 401 (some "errorbody") :=
  ⟨rfl, by decide⟩

/-- Witness for C5 (amended) at a concrete 401 response. -/
theorem non2xx_preserves_store_witness :
    (GoogleOAuthClient.exchange_code_for_tokens ⟨"id", "sec", "rt", "tok", some 0⟩ 7
        ⟨401, ⟨Option.none, Option.none, Option.none⟩, "errorbody"⟩
      = ⟨⟨"id", "sec", "rt", "tok", some 0⟩, .error (.httpError 401 (some "errorbody"))⟩) ∧
    (GoogleOAuthClient.refresh_access_token ⟨"id", "sec", "rt", "tok", some 0⟩ 7
        ⟨401, ⟨Option.none, Option.none, Option.none⟩, "errorbody"⟩
      = ⟨⟨"id", "sec", "rt", "tok", some 0⟩, .error (.httpError 401 (some "errorbody"))⟩) ∧
    (GoogleServiceAccountClient._request_access_token ⟨fun _ => [0], fun _ _ => true⟩ "sc" "uri"
        ⟨"svc@example.iam", "PEMKEY", "tok", some 0⟩ 0 7
        ⟨401, ⟨Option.none, Option.none, Option.none⟩, "errorbody"⟩
      = ⟨⟨"svc@example.iam", "PEMKEY", "tok", some 0⟩, .error (.httpError 401 Option.none)⟩) := by
  have h := non2xx_preserves_store ⟨"id", "sec", "rt", "tok", some 0⟩
    ⟨"svc@example.iam", "PEMKEY", "tok", some 0⟩ ⟨fun _ => [0], fun _ _ => true⟩ "sc" "uri" 0 7
    ⟨401, ⟨Option.none, Option.none, Option.none⟩, "errorbody"⟩ (by decide)
  exact ⟨h.1 (by decide) (by decide), h.2.1 (by decide), h.2.2 (by decide) (by decide) (by decide)⟩

/-- C6 (amended): after every successful (HTTP 200) grant — code exchange,
refresh grant, and service-account JWT-bearer grant — the persisted
`token_expiry` equals exactly `now + (expires_in - 60)` with `expires_in`
defaulting to 0 for the OAuth grants and 3600 for the service-account
grant; and whenever the declared lifetime exceeds 60 seconds,
`now < token_expiry ≤ now + declared_lifetime`. -/
theorem token_expiry_margin
    (store : OAuthRecord) (sstore : SARecord) (env : SignatureEnv) (scope token_uri : String)
    (jwt_now_ms now : Int) (resp : HttpResponse)
    (h200 : resp.statusCode = 200) :
    (store.client_id ≠ "" → store.client_secret ≠ "" →
      (GoogleOAuthClient.exchange_code_for_tokens store now resp).storeAfter.token_expiry
        = some (now + (resp.json.expires_in.getD 0 - 60))) ∧
    (store.refresh_token ≠ "" →
      (GoogleOAuthClient.refresh_access_token store now resp).storeAfter.token_expiry
        = some (now + (resp.json.expires_in.getD 0 - 60))) ∧
    (sstore.client_email ≠ "" → scope ≠ "" → sstore.private_key ≠ "" →
      (GoogleServiceAccountClient._request_access_token env scope token_uri sstore jwt_now_ms now resp).storeAfter.token_expiry
        = some (now + (resp.json.expires_in.getD 3600 - 60))) ∧
    (∀ L : Int, 60 < L → now < now + (L - 60) ∧ now + (L - 60) ≤ now + L) := by
  refine ⟨fun h1 h2 => ?_, fun h1 => ?_, fun h1 h2 h3 => ?_, fun L hL => by omega⟩
  · unfold GoogleOAuthClient.exchange_code_for_tokens
    rw [if_neg (by simp [h1, h2]), if_neg (by simp [h200])]
    rfl
  · unfold GoogleOAuthClient.refresh_access_token
    rw [if_neg h1, if_neg (by simp [h200])]
    rfl
  · unfold GoogleServiceAccountClient._request_access_token
      GoogleServiceAccountClient._build_jwt_assertion
    rw [if_neg h1, if_neg h2, if_neg h3]
    simp only []
    rw [if_neg (by simp [h200])]
    rfl

/-- C6 counterexample: a successful exchange whose response declares
`expires_in = 0` persists `token_expiry = now - 60`, violating the claimed
`now < token_expiry`. -/
theorem token_expiry_margin_counterexample :
    (GoogleOAuthClient.exchange_code_for_tokens ⟨"id", "sec", "", "", Option.none⟩ 0
        ⟨200, ⟨some "tok", Option.none, some 0⟩, "body"⟩).storeAfter.token_expiry
      = some (-60) ∧
    ¬ ((0 : Int) < -60) := ⟨rfl, by decide⟩

/-- Witness for C6 (amended) at a concrete 200 response with
`expires_in = 3600`. -/
theorem token_expiry_margin_witness :
    ((GoogleOAuthClient.exchange_code_for_tokens ⟨"id", "sec", "rt", "tok", some 0⟩ 10
        ⟨200, ⟨some "new", Option.none, some 3600⟩, "body"⟩).storeAfter.token_expiry
      = some (10 + ((3600 : Int) - 60))) ∧
    ((GoogleOAuthClient.refresh_access_token ⟨"id", "sec", "rt", "tok", some 0⟩ 10
        ⟨200, ⟨some "new", Option.none, some 3600⟩, "body"⟩).storeAfter.token_expiry
      = some (10 + ((3600 : Int) - 60))) ∧
    ((GoogleServiceAccountClient._request_access_token ⟨fun _ => [0], fun _ _ => true⟩ "sc" "uri"
        ⟨"svc@example.iam", "PEMKEY", "tok", some 0⟩ 0 10
        ⟨200, ⟨some "new", Option.none, some 3600⟩, "body"⟩).storeAfter.token_expiry
      = some (10 + ((3600 : Int) - 60))) ∧
    ((10 : Int) < 10 + ((3600 : Int) - 60) ∧ 10 + ((3600 : Int) - 60) ≤ 10 + (3600 : Int)) := by
  have h := token_expiry_margin ⟨"id", "sec", "rt", "tok", some 0⟩
    ⟨"svc@example.iam", "PEMKEY", "tok", some 0⟩ ⟨fun _ => [0], fun _ _ => true⟩ "sc" "uri" 0 10
    ⟨200, ⟨some "new", Option.none, some 3600⟩, "body"⟩ rfl
  exact ⟨h.1 (by decide) (by decide), h.2.1 (by decide),
    h.2.2.1 (by decide) (by decide) (by decide), h.2.2.2 3600 (by decide)⟩

/-- C7: the stored `refresh_token` is modified only by an exchange response
carrying a non-empty `refresh_token`: every `refresh_access_token` call
leaves it untouched (its update dict has no `refresh_token` key), a
successful exchange whose response lacks one leaves it untouched, a
successful exchange whose response carries one overwrites it, and a failed
exchange leaves the whole record unchanged. -/
theorem refresh_token_preservation (store : OAuthRecord) (now : Int) (resp : HttpResponse) :
    ((GoogleOAuthClient.refresh_access_token store now resp).storeAfter.refresh_token
      = store.refresh_token) ∧
    (resp.statusCode = 200 → store.client_id ≠ "" → store.client_secret ≠ "" →
      (resp.json.refresh_token.getD "" = "" →
        (GoogleOAuthClient.exchange_code_for_tokens store now resp).storeAfter.refresh_token
          = store.refresh_token) ∧
      (resp.json.refresh_token.getD "" ≠ "" →
        (GoogleOAuthClient.exchange_code_for_tokens store now resp).storeAfter.refresh_token
          = resp.json.refresh_token.getD "")) ∧
    ((GoogleOAuthClient.exchange_code_for_tokens store now resp).result.isOk = false →
      (GoogleOAuthClient.exchange_code_for_tokens store now resp).storeAfter = store) := by
  refine ⟨?_, fun h200 h1 h2 => ⟨fun hemp => ?_, fun hne => ?_⟩, fun herr => ?_⟩
  · unfold GoogleOAuthClient.refresh_access_token
    by_cases h1 : store.refresh_token = ""
    · rw [if_pos h1]
    · rw [if_neg h1]
      by_cases h2 : resp.statusCode ≠ 200
      · rw [if_pos h2]
      · rw [if_neg h2]
        rfl
  · unfold GoogleOAuthClient.exchange_code_for_tokens
    rw [if_neg (by simp [h1, h2]), if_neg (by simp [h200])]
    simp [GoogleOAuthClient._write_dataset, hemp]
  · unfold GoogleOAuthClient.exchange_code_for_tokens
    rw [if_neg (by simp [h1, h2]), if_neg (by simp [h200])]
    simp [GoogleOAuthClient._write_dataset, hne]
  · unfold GoogleOAuthClient.exchange_code_for_tokens at herr ⊢
    by_cases h1 : store.client_id = "" ∨ store.client_secret = ""
    · rw [if_pos h1]
    · rw [if_neg h1] at herr ⊢
      by_cases h2 : resp.statusCode ≠ 200
      · rw [if_pos h2]
      · rw [if_neg h2] at herr
        simp [Except.isOk, Except.toBool] at herr

/-- Witness for C7 at concrete refresh and exchange responses with and
without a `refresh_token` field. -/
theorem refresh_token_preservation_witness :
    ((GoogleOAuthClient.refresh_access_token ⟨"id", "sec", "oldrt", "tok", some 0⟩ 10
        ⟨200, ⟨some "new", Option.none, some 3600⟩, "body"⟩).storeAfter.refresh_token = "oldrt") ∧
    ((⟨200, ⟨some "new", Option.none, some 3600⟩, "body"⟩ : HttpResponse).json.refresh_token.getD "" = "" →
      (GoogleOAuthClient.exchange_code_for_tokens ⟨"id", "sec", "oldrt", "tok", some 0⟩ 10
        ⟨200, ⟨some "new", Option.none, some 3600⟩, "body"⟩).storeAfter.refresh_token = "oldrt") ∧
    ((⟨200, ⟨some "new", some "newrt", some 3600⟩, "body"⟩ : HttpResponse).json.refresh_token.getD "" ≠ "" →
      (GoogleOAuthClient.exchange_code_for_tokens ⟨"id", "sec", "oldrt", "tok", some 0⟩ 10
        ⟨200, ⟨some "new", some "newrt", some 3600⟩, "body"⟩).storeAfter.refresh_token
        = (⟨200, ⟨some "new", some "newrt", some 3600⟩, "body"⟩ : HttpResponse).json.refresh_token.getD "") :=
  ⟨(refresh_token_preservation ⟨"id", "sec", "oldrt", "tok", some 0⟩ 10
      ⟨200, ⟨some "new", Option.none, some 3600⟩, "body"⟩).1,
   fun hemp => ((refresh_token_preservation ⟨"id", "sec", "oldrt", "tok", some 0⟩ 10
      ⟨200, ⟨some "new", Option.none, some 3600⟩, "body"⟩).2.1 rfl (by decide) (by decide)).1 hemp,
   fun hne => ((refresh_token_preservation ⟨"id", "sec", "oldrt", "tok", some 0⟩ 10
      ⟨200, ⟨some "new", some "newrt", some 3600⟩, "body"⟩).2.1 rfl (by decide) (by decide)).2 hne⟩

/-- C8: evaluation at the failing input (empty store).  The OAuth manager's
`_read_dataset` lazily creates, persists and returns the default record as
a field dict, but the ServiceAccount manager's `_read_dataset` returns the
raw default DataSet object (`return default_ds`) instead of the field dict,
so subsequent field lookups by its callers fail. -/
theorem sa_read_dataset_returns_raw_dataset :
    GoogleServiceAccountClient._read_dataset Option.none 5
      = ⟨some ⟨"", "", "", some 5⟩, .dataset ⟨"", "", "", some 5⟩⟩ ∧
    GoogleOAuthClient._read_dataset Option.none 5
      = ⟨some ⟨"", "", "", "", some 5⟩, .dict ⟨"", "", "", "", some 5⟩⟩ ∧
    (DatasetOrDict.dataset (⟨"", "", "", some 5⟩ : SARecord))
      ≠ .dict ⟨"", "", "", some 5⟩ := ⟨rfl, rfl, by decide⟩
